import Mathlib

/-!
Verification development for the Reload Pro UI core
(`src/firmware/Reload Pro.cydsn/ui.c` and `config.h`).

The C code is shallowly embedded: pure computations become Lean
functions on `Nat`/`Int` (C `int` division and remainder are the
truncating `Int.tdiv` / `Int.tmod`), event-driven `while` loops become
structural recursion over the list of events the loop consumes, and
fallible operations (C division by zero) return `Option`.  Display
calls, delays and interrupt plumbing have no observable effect on the
verified state and are omitted.
-/

/-! ## Data model (`config.h`, `ui.c`) -/

/-- Event discriminator: `UI_EVENT_NONE`, `UI_EVENT_BUTTONPRESS`,
`UI_EVENT_UPDOWN`, `UI_EVENT_ADC_READING`, `UI_EVENT_OVERTEMP` from `tasks.h`
as used by `ui.c`. -/
inductive ui_event_type where
  | NONE
  | BUTTONPRESS
  | UPDOWN
  | ADC_READING
  | OVERTEMP
deriving DecidableEq, Repr

/-- A UI event: `{type, int_arg}`.  The `when` timestamp only drives the
debounce and tick logic, which none of the verified claims depend on, so it
is omitted from the embedding. -/
structure ui_event where
  type : ui_event_type
  int_arg : Int
deriving DecidableEq, Repr

/-- Output mode enumeration from `config.h`. -/
inductive output_mode where
  | OUTPUT_MODE_OFF
  | OUTPUT_MODE_ON
  | OUTPUT_MODE_FEEDBACK
deriving DecidableEq, Repr

/-- Identifies which C screen-handler function a `state_func.func` pointer
refers to (the function pointers of `ui.c`). -/
inductive handler_id where
  | h_cc_load
  | h_menu
  | h_calibrate
  | h_display_config
  | h_set_contrast
  | h_overtemp
  | h_splashscreen
deriving DecidableEq, Repr

/-- Identifies the `void *arg` payload of a state descriptor.  The source
only ever passes `NULL`, `&main_menu`, or `&display_settings.cc` for the
descriptors the claims touch. -/
inductive ui_arg where
  | nullArg
  | main_menu_a
  | cc_display_a
deriving DecidableEq, Repr

/-- State descriptor `state_func` from `ui.c`: `{func, arg, is_main_state}`.
`func = none` models the C `NULL` handler (the home sentinel). -/
structure state_func where
  func : Option handler_id
  arg : ui_arg
  is_main_state : Bool
deriving DecidableEq, Repr

/-- Macro `STATE_MAIN` = `{NULL, NULL, 0}`: the home sentinel. -/
def STATE_MAIN : state_func := { func := none, arg := .nullArg, is_main_state := false }

/-- Macro `STATE_CC_LOAD` = `{cc_load, NULL, 1}`. -/
def STATE_CC_LOAD : state_func := { func := some .h_cc_load, arg := .nullArg, is_main_state := true }

/-- Macro `STATE_CALIBRATE` = `{calibrate, NULL, 0}`. -/
def STATE_CALIBRATE : state_func := { func := some .h_calibrate, arg := .nullArg, is_main_state := false }

/-- Macro `STATE_CONFIGURE_CC_DISPLAY` = `{display_config, &display_settings.cc, 0}`. -/
def STATE_CONFIGURE_CC_DISPLAY : state_func :=
  { func := some .h_display_config, arg := .cc_display_a, is_main_state := false }

/-- Macro `STATE_SET_CONTRAST` = `{set_contrast, NULL, 0}`. -/
def STATE_SET_CONTRAST : state_func :=
  { func := some .h_set_contrast, arg := .nullArg, is_main_state := false }

/-- Macro `STATE_OVERTEMP` = `{overtemp, NULL, 0}`. -/
def STATE_OVERTEMP : state_func := { func := some .h_overtemp, arg := .nullArg, is_main_state := false }

/-- Macro `STATE_MAIN_MENU` = `{menu, &main_menu, 0}`. -/
def STATE_MAIN_MENU : state_func :=
  { func := some .h_menu, arg := .main_menu_a, is_main_state := false }

/-- One menu entry `menuitem` (`{caption, new_state}`).  The embedding keeps
only the non-sentinel items of a C menu list; the terminating
`{NULL, {NULL, NULL, 0}}` sentinel is represented by the end of the list. -/
structure menuitem where
  caption : String
  new_state : state_func
deriving DecidableEq, Repr

/-- Menu record `menudata` (`{title, items}`). -/
structure menudata where
  title : Option String
  items : List menuitem
deriving DecidableEq, Repr

/-- Default used to give `List.getD` a value; never reached when the
selection index is in bounds. -/
def menuitem_default : menuitem := { caption := "", new_state := STATE_MAIN }

/-- The `main_menu` constant of `ui.c`. -/
def main_menu : menudata :=
  { title := none
    items :=
      [ { caption := "C/C Load", new_state := STATE_CC_LOAD }
      , { caption := "Readouts", new_state := STATE_CONFIGURE_CC_DISPLAY }
      , { caption := "Contrast", new_state := STATE_SET_CONTRAST }
      , { caption := "Calibrate", new_state := STATE_CALIBRATE } ] }

/-- Live control state `state_t` from `config.h` (`current_setpoint`,
`current_range`). -/
structure state_t where
  current_setpoint : Int
  current_range : Int
deriving DecidableEq, Repr

/-- Persisted settings record `settings_t` from `config.h`.  All fields are
C `int`, modelled as `Int`. -/
structure settings_t where
  dac_low_gain : Int
  dac_high_gain : Int
  dac_low_offset : Int
  dac_high_offset : Int
  opamp_offset_trim : Int
  adc_current_offset : Int
  adc_current_gain : Int
  adc_voltage_offset : Int
  adc_voltage_gain : Int
  backlight_brightness : Int
  lcd_contrast : Int
deriving DecidableEq, Repr

/-- A settings record built from the `DEFAULT_*` values of `config.h`.
`backlight_brightness` and `lcd_contrast` defaults are not given in the
sources under `src/`; they are set to 0 here (their values never matter
for the theorems below). -/
def default_settings : settings_t :=
  { dac_low_gain := 186
    dac_high_gain := 21157
    dac_low_offset := 0
    dac_high_offset := 0
    opamp_offset_trim := 36
    adc_current_offset := -35
    adc_current_gain := 599
    adc_voltage_offset := 0
    adc_voltage_gain := 2008
    backlight_brightness := 0
    lcd_contrast := 0 }

/-- Constant `CURRENT_LOWRANGE_STEP` (config.h). -/
def CURRENT_LOWRANGE_STEP : Int := 5000

/-- Constant `CURRENT_FULLRANGE_STEP` (config.h). -/
def CURRENT_FULLRANGE_STEP : Int := 20000

/-- Constant `CURRENT_LOWRANGE_MAX` (config.h). -/
def CURRENT_LOWRANGE_MAX : Int := 250000

/-- Constant `CURRENT_FULLRANGE_MAX` (config.h). -/
def CURRENT_FULLRANGE_MAX : Int := 6000000

/-! ## Quadrature decoder (`quadrature_event_isr`, ui.c lines 129–151) -/

/-- The constant table `quadrature_states[] = {0x1, 0x3, 0x0, 0x2}`:
maps the current 2-bit gray-code level (index) to the next level of a
forward transition. -/
def quadrature_states : Nat → Nat
  | 0 => 1
  | 1 => 3
  | 2 => 0
  | _ => 2

/-- The two static variables of `quadrature_event_isr`:
`last_levels` (initially 3) and `count` (initially 0). -/
structure quadrature_state where
  last_levels : Nat
  count : Int
deriving DecidableEq, Repr

/-- The edge-classification part of the ISR: increment `count` on a forward
transition, decrement on a backward one, ignore glitches (leaving
`last_levels` unchanged). -/
def quadrature_update (s : quadrature_state) (levels : Nat) : quadrature_state :=
  if quadrature_states s.last_levels = levels then
    { last_levels := levels, count := s.count + 1 }
  else if quadrature_states levels = s.last_levels then
    { last_levels := levels, count := s.count - 1 }
  else s

/-- One invocation of `quadrature_event_isr` for a read level value:
classify the edge, then, once `abs(count) >= 4`, enqueue an `UP_DOWN`
event with `int_arg = count / 4` (C truncating division) and keep
`count % 4` (C truncating remainder). -/
def quadrature_event_isr (s : quadrature_state) (levels : Nat) :
    quadrature_state × List ui_event :=
  let s1 := quadrature_update s levels
  if 4 ≤ s1.count.natAbs then
    ({ s1 with count := Int.tmod s1.count 4 },
      [{ type := .UPDOWN, int_arg := Int.tdiv s1.count 4 }])
  else (s1, [])

/-- Run the ISR over a sequence of read level values, collecting all
enqueued events in order. -/
def quadrature_run (s : quadrature_state) : List Nat → quadrature_state × List ui_event
  | [] => (s, [])
  | l :: rest =>
    let p := quadrature_event_isr s l
    let q := quadrature_run p.1 rest
    (q.1, p.2 ++ q.2)

/-! ## Formatter (`format_number`, ui.c lines 153–180) -/

/-- ASCII digit for `d % 10`. -/
def digit_char (d : Nat) : Char := Char.ofNat (48 + d % 10)

/-- `sprintf "%1d"` for an argument known to be `< 10` at every use site. -/
def fmt1 (n : Nat) : List Char := [digit_char n]

/-- `sprintf "%02d"` for an argument known to be `< 100` at every use site. -/
def fmt2 (n : Nat) : List Char := [digit_char (n / 10), digit_char n]

/-- `sprintf "%03d"` for an argument known to be `< 1000` at every use site
(the magnitude loop guarantees `num < 1000000`, hence `whole < 1000`;
see `format_magnitude_loop_lt`). -/
def fmt3 (n : Nat) : List Char := [digit_char (n / 100), digit_char (n / 10), digit_char n]

/-- The `while (num >= 1000000) { num /= 1000; magnitude++; }` loop of
`format_number`, with `magnitude` starting at 1. -/
def format_magnitude_loop (num : Nat) (magnitude : Nat) : Nat × Nat :=
  if h : 1000000 ≤ num then format_magnitude_loop (num / 1000) (magnitude + 1)
  else (num, magnitude)
termination_by num
decreasing_by exact Nat.div_lt_self (by omega) (by omega)

/-- The body of `format_number` after the magnitude loop: pick the layout
from `whole = num / 1000`, then append `"m" + suffix` when `magnitude == 1`
and `suffix + " "` otherwise. -/
def format_number_body (num magnitude : Nat) (suffix : Char) : List Char :=
  let whole := num / 1000
  let remainder := num % 1000
  let body :=
    if whole < 10 then fmt1 whole ++ ['.'] ++ fmt2 (remainder / 10)
    else if whole < 100 then fmt2 whole ++ ['.'] ++ fmt1 (remainder / 100)
    else fmt3 whole
  if magnitude = 1 then body ++ ['m', suffix] else body ++ [suffix, ' ']

/-- Character-list version of `format_number(num, suffix, out)`:
clamp negatives to zero, scale into range, format. -/
def format_number_chars (num : Int) (suffix : Char) : List Char :=
  let n0 : Nat := if num < 0 then 0 else num.toNat
  let p := format_magnitude_loop n0 1
  format_number_body p.1 p.2 suffix

/-- `format_number` as a `String`-producing function. -/
def format_number (num : Int) (suffix : Char) : String :=
  String.mk (format_number_chars num suffix)

/-- The scaled whole part that `format_number` displays (used to state the
width theorem). -/
def format_whole (num : Int) : Nat :=
  (format_magnitude_loop (if num < 0 then 0 else num.toNat) 1).1 / 1000

/-! ### Formatter helper lemmas -/

theorem string_length_mk (l : List Char) : (String.mk l).length = l.length := rfl

theorem format_magnitude_loop_of_lt {num : Nat} (m : Nat) (h : num < 1000000) :
    format_magnitude_loop num m = (num, m) := by
  unfold format_magnitude_loop
  rw [dif_neg (by omega)]

theorem format_magnitude_loop_of_ge {num : Nat} (m : Nat) (h : 1000000 ≤ num) :
    format_magnitude_loop num m = format_magnitude_loop (num / 1000) (m + 1) := by
  conv_lhs => rw [format_magnitude_loop.eq_def]
  rw [dif_pos h]

/-- The magnitude loop always exits with `num < 1000000` (so the `%03d`
branch always receives a three-digit whole part). -/
theorem format_magnitude_loop_lt (num : Nat) : ∀ m, (format_magnitude_loop num m).1 < 1000000 := by
  induction num using Nat.strong_induction_on with
  | _ num ih =>
    intro m
    unfold format_magnitude_loop
    split
    · rename_i h
      exact ih _ (Nat.div_lt_self (by omega) (by omega)) _
    · rename_i h
      omega

theorem format_number_body_length (num mag : Nat) (s : Char) :
    (format_number_body num mag s).length = if num / 1000 < 100 then 6 else 5 := by
  unfold format_number_body fmt1 fmt2 fmt3
  by_cases h1 : num / 1000 < 10
  · simp only [if_pos h1, if_pos (show num / 1000 < 100 by omega)]
    split_ifs <;> simp
  · by_cases h2 : num / 1000 < 100
    · simp only [if_neg h1, if_pos h2]
      split_ifs <;> simp
    · simp only [if_neg h1, if_neg h2]
      split_ifs <;> simp

/-! ## Control facade (`config.h` declarations; definitions outside `src/`) -/

/-- Modelled from the spec: `set_current` is declared in `config.h` but its
definition is not under `src/`.  Spec §4.4 gives its contract: clamp the
requested setpoint to `[0, CURRENT_FULLRANGE_MAX]`; select range 0 iff the
setpoint is at most `CURRENT_LOWRANGE_MAX`, else range 1.  Programming the
DAC is an external effect with no bearing on the verified state. -/
def set_current (setpoint : Int) : state_t :=
  let sp := if setpoint < 0 then 0
            else if CURRENT_FULLRANGE_MAX < setpoint then CURRENT_FULLRANGE_MAX
            else setpoint
  { current_setpoint := sp
    current_range := if sp ≤ CURRENT_LOWRANGE_MAX then 0 else 1 }

/-- `adjust_current_setpoint` (ui.c lines 182–188): one detent moves the
setpoint by the step of the active range. -/
def adjust_current_setpoint (st : state_t) (delta : Int) : state_t :=
  if st.current_range = 0 then
    set_current (st.current_setpoint + delta * CURRENT_LOWRANGE_STEP)
  else
    set_current (st.current_setpoint + delta * CURRENT_FULLRANGE_STEP)

/-! ## Readout formatting (`print_resistance`, ui.c lines 258–265) -/

/-- The custom ohm glyph `FONT_GLYPH_OHM` of the display font, modelled as a
single character. -/
def FONT_GLYPH_OHM : Char := 'Ω'

/-- `print_resistance`: when measured current is positive, format
`(voltage * 10) / (current / 100000)` with the ohm glyph; otherwise emit the
`"----Ω"` sentinel.  C division is `Int.tdiv`; a zero divisor is division
by zero (undefined behaviour), modelled as `none`. -/
def print_resistance (voltage current : Int) : Option String :=
  if 0 < current then
    if Int.tdiv current 100000 = 0 then none
    else some (format_number (Int.tdiv (voltage * 10) (Int.tdiv current 100000)) FONT_GLYPH_OHM)
  else some (String.mk ['-', '-', '-', '-', FONT_GLYPH_OHM])

/-! ## Generic menu screen (`menu`, ui.c lines 384–421) -/

/-- The downward walk of the `UP_DOWN` handler: step forward up to `n`
times, stopping when the next item is the sentinel
(`menu->items[selected + 1].caption == NULL`; in the embedding, past the end
of the item list). -/
def menu_down (md : menudata) (selected : Nat) : Nat → Nat
  | 0 => selected
  | n + 1 =>
    if (md.items.get? (selected + 1)).isNone then selected
    else menu_down md (selected + 1) n

/-- The `UP_DOWN` case of `menu`: negative deltas clamp at zero, positive
deltas walk forward but stop at the last non-sentinel item. -/
def menu_updown (md : menudata) (selected : Nat) (delta : Int) : Nat :=
  if delta < 0 then
    if 0 ≤ (selected : Int) + delta then ((selected : Int) + delta).toNat else 0
  else
    menu_down md selected delta.toNat

/-- The `menu` event loop over the events it consumes: `UP_DOWN` moves the
selection, `OVERTEMP` returns the overtemp descriptor, `BUTTON_PRESS` with
`int_arg == 1` exits the loop and returns `items[selected].new_state`; all
other events are ignored.  `none` means the event list was exhausted with
the loop still waiting. -/
def menu (md : menudata) (selected : Nat) : List ui_event → Option state_func
  | [] => none
  | e :: rest =>
    match e.type with
    | .UPDOWN => menu md (menu_updown md selected e.int_arg) rest
    | .OVERTEMP => some STATE_OVERTEMP
    | .BUTTONPRESS =>
      if e.int_arg = 1 then some ((md.items.getD selected menuitem_default).new_state)
      else menu md selected rest
    | _ => menu md selected rest

/-! ## CC-load screen (`cc_load`, ui.c lines 430–451) -/

/-- One iteration of the `cc_load` event loop.  The `BUTTON_PRESS` case has
no `break`: when `int_arg != 1` control falls through into the `UP_DOWN`
case and adjusts the setpoint by `int_arg` detents.  Returns the descriptor
the screen transitions to (if any) and the updated live state. -/
def cc_load_step (st : state_t) (e : ui_event) : Option state_func × state_t :=
  match e.type with
  | .BUTTONPRESS =>
    if e.int_arg = 1 then (some STATE_MAIN_MENU, st)
    else (none, adjust_current_setpoint st e.int_arg)
  | .UPDOWN => (none, adjust_current_setpoint st e.int_arg)
  | .OVERTEMP => (some STATE_OVERTEMP, st)
  | _ => (none, st)

/-! ## Contrast editor (`set_contrast`, ui.c lines 325–364) -/

/-- The `set_contrast` event loop: `UP_DOWN` adjusts the contrast and clamps
it into `[0, 0x3F]`, `BUTTON_PRESS(1)` persists the contrast value and
returns the home sentinel, `OVERTEMP` returns the overtemp descriptor.  The
result pairs the returned descriptor with `some c` when the persisted write
of `c` happened. -/
def set_contrast (contrast : Int) : List ui_event → Option (state_func × Option Int)
  | [] => none
  | e :: rest =>
    match e.type with
    | .UPDOWN =>
      let c := contrast + e.int_arg
      let c := if 0x3F < c then 0x3F else if c < 0 then 0 else c
      set_contrast c rest
    | .BUTTONPRESS =>
      if e.int_arg = 1 then some (STATE_MAIN, some contrast)
      else set_contrast contrast rest
    | .OVERTEMP => some (STATE_OVERTEMP, none)
    | _ => set_contrast contrast rest

/-! ## Overtemp screen (`overtemp`, ui.c lines 366–382) -/

/-- The `overtemp` screen loop.  Each list element pairs the event obtained
from `next_event` with the output mode read immediately afterwards.  The
mode check precedes the loop-condition check on the same event, so a
`FEEDBACK` reading exits first (leaving the live state untouched); a
`BUTTON_PRESS(1)` otherwise exits through the loop condition, running
`set_current(0)` and `set_output_mode(OUTPUT_MODE_FEEDBACK)`.  The result
is the returned descriptor, the live state after the screen, and the output
mode write the screen issued (if any). -/
def overtemp (live : state_t) :
    List (ui_event × output_mode) → Option (state_func × state_t × Option output_mode)
  | [] => none
  | (e, m) :: rest =>
    if m = .OUTPUT_MODE_FEEDBACK then some (STATE_MAIN, live, none)
    else if e.type = .BUTTONPRESS ∧ e.int_arg = 1 then
      some (STATE_MAIN, set_current 0, some .OUTPUT_MODE_FEEDBACK)
    else overtemp live rest

/-! ## UI trampoline (`vTaskUI`, ui.c lines 591–616) -/

/-- One iteration of the trampoline in `vTaskUI`, after the current screen
handler has returned `new_state`: a sentinel return (`func == NULL`)
reinstalls the remembered `main_state`; otherwise the returned descriptor is
adopted; finally, if the adopted descriptor has `is_main_state` set it is
recorded as the new `main_state`.  Returns the pair
(state run by the next iteration, new remembered `main_state`). -/
def vTaskUI_step (main_state new_state : state_func) : state_func × state_func :=
  let state := if new_state.func = none then main_state else new_state
  let main := if state.is_main_state then state else main_state
  (state, main)

/-! ## Calibration wizard (`calibrate*`, ui.c lines 455–589) -/

/-- `calibrate_offsets` (ui.c lines 455–467): wait for `BUTTON_PRESS(1)`,
then snapshot the raw voltage and raw current readings into the scratch
settings.  All other events — including `OVERTEMP` — are discarded by the
wait loop.  `none` means the events ran out with the loop still waiting. -/
def calibrate_offsets (events : List ui_event) (raw_voltage raw_current : Int)
    (new_settings : settings_t) : Option settings_t :=
  match events with
  | [] => none
  | e :: rest =>
    if e.type = .BUTTONPRESS ∧ e.int_arg = 1 then
      some { new_settings with
              adc_voltage_offset := raw_voltage
              adc_current_offset := raw_current }
    else calibrate_offsets rest raw_voltage raw_current new_settings

/-- `calibrate_voltage` (ui.c lines 471–492): each `UP_DOWN` event adds
`(adc_voltage_gain * int_arg) / 500` (C truncating division) to the scratch
voltage gain; `BUTTON_PRESS(1)` finishes the step.  The loop also renders
the provisional reading, a display-only effect omitted here.  `OVERTEMP` is
not handled (it hits the `default` case of the switch). -/
def calibrate_voltage (events : List ui_event) (new_settings : settings_t) :
    Option settings_t :=
  match events with
  | [] => none
  | e :: rest =>
    if e.type = .BUTTONPRESS ∧ e.int_arg = 1 then some new_settings
    else if e.type = .UPDOWN then
      calibrate_voltage rest
        { new_settings with
            adc_voltage_gain :=
              new_settings.adc_voltage_gain +
                Int.tdiv (new_settings.adc_voltage_gain * e.int_arg) 500 }
    else calibrate_voltage rest new_settings

/-- The trim sweep loop of `calibrate_opamp_dac_offsets`, with `residual i`
standing for the reading
`ADC_GetResult16(ADC_CHAN_CURRENT_SENSE) - ADC_GetResult16(ADC_CHAN_CURRENT_SET)`
observed at trim setting `i`.  `fuel` counts the remaining iterations of
`for (int i = 0; i < 32; i++)`. -/
def opamp_sweep_aux (residual : Nat → Int) (s : settings_t) : Nat → Nat → settings_t
  | _, 0 => s
  | i, fuel + 1 =>
    if residual i ≤ 0 then { s with opamp_offset_trim := (i : Int) - 1 }
    else opamp_sweep_aux residual s (i + 1) fuel

/-- `calibrate_opamp_dac_offsets` (ui.c lines 496–530): sweep the opamp
offset trim over `0..31`; the first setting whose residual is `≤ 0` fixes
`opamp_offset_trim := i - 1`; if none is found the field is untouched.  The
`set_current(100000)` / `set_current(0)` calls affect only the live control
state, and the DAC-offset half of the function is commented out in the
source. -/
def calibrate_opamp_dac_offsets (residual : Nat → Int) (new_settings : settings_t) :
    settings_t :=
  opamp_sweep_aux residual new_settings 0 32

/-- `calibrate_current` (ui.c lines 532–570): the entire body apart from
display calls is commented out in the source, so the scratch settings pass
through unchanged and no events are consumed. -/
def calibrate_current (new_settings : settings_t) : settings_t := new_settings

/-- The environment a calibration run observes: the events consumed by the
two interactive steps and the analog readings. -/
structure cal_env where
  offsets_events : List ui_event
  voltage_events : List ui_event
  raw_voltage : Int
  raw_current : Int
  residual : Nat → Int

/-- The persisted settings store and the log of `EEPROM_Write` calls that
wrote a whole `settings_t` record (each entry is the record written). -/
structure eeprom_state where
  persisted : settings_t
  write_log : List settings_t

/-- The four wizard steps applied to the scratch copy, in order.  `none`
if the wizard was abandoned inside one of the interactive steps. -/
def calibrate_steps (env : cal_env) (s : settings_t) : Option settings_t :=
  match calibrate_offsets env.offsets_events env.raw_voltage env.raw_current s with
  | none => none
  | some s1 =>
    match calibrate_voltage env.voltage_events s1 with
    | none => none
    | some s2 => some (calibrate_current (calibrate_opamp_dac_offsets env.residual s2))

/-- `calibrate` (ui.c lines 572–589): `memcpy` the persisted settings into a
scratch record, run the four steps on the scratch copy, then issue a single
`EEPROM_Write` of the whole record and return the home sentinel.  If the
wizard is abandoned mid-step, no write happens and no descriptor is
returned. -/
def calibrate (env : cal_env) (ee : eeprom_state) : eeprom_state × Option state_func :=
  match calibrate_steps env ee.persisted with
  | none => (ee, none)
  | some scratch =>
    ({ persisted := scratch, write_log := ee.write_log ++ [scratch] }, some STATE_MAIN)

/-! ## Concrete instances used by witnesses -/

/-- Events that encode a sequence of encoder detents (`UP_DOWN` events). -/
def updown_events (ds : List Int) : List ui_event :=
  ds.map fun d => { type := .UPDOWN, int_arg := d }

/-- A calibration environment in which the operator presses the button once
in each interactive step and every trim residual is positive. -/
def env0 : cal_env :=
  { offsets_events := [{ type := .BUTTONPRESS, int_arg := 1 }]
    voltage_events := [{ type := .BUTTONPRESS, int_arg := 1 }]
    raw_voltage := 7
    raw_current := -3
    residual := fun _ => 1 }

/-- EEPROM initially holding the default settings, with no writes logged. -/
def ee0 : eeprom_state := { persisted := default_settings, write_log := [] }

/-- The scratch record `env0` produces: offsets snapshotted, all else
unchanged. -/
def scratch0 : settings_t :=
  { default_settings with adc_voltage_offset := 7, adc_current_offset := -3 }

/-- A residual trace whose first non-positive reading is at trim setting 5. -/
def residual0 : Nat → Int := fun i => if i < 5 then 1 else 0

/-! ## C2: formatter width -/

/-- Claim C2 (corrected): `format_number` does not always produce 6
characters.  For every input and suffix the output has length 6 when the
scaled whole part is below 100 and length 5 when it has three digits (the
`%03d` branch emits only 3 digits before the 2-character suffix). -/
theorem format_number_width (v : Int) (s : Char) :
    (format_number v s).length = if format_whole v < 100 then 6 else 5 := by
  simp only [format_number, string_length_mk, format_number_chars, format_whole]
  rw [format_number_body_length]

/-- Counterexample to claim C2 as stated: at `v = 100000` (100 mA in
microamps, a non-negative input) the formatted string `"100mA"` has length
5, not 6. -/
theorem format_number_width_cex :
    (0 : Int) ≤ 100000 ∧ (format_number 100000 'A').length ≠ 6 := by
  constructor
  · norm_num
  · have h : format_magnitude_loop (Int.toNat 100000) 1 = (100000, 1) :=
      format_magnitude_loop_of_lt 1 (by norm_num)
    rw [format_number, string_length_mk, format_number_chars]
    norm_num
    rw [h, format_number_body_length]
    norm_num

/-! ## C4: quadrature detent accumulation -/

/-- Claim C4 (corrected): starting from `last_levels = 1` and a residual
count `c` with `0 ≤ c < 4` (forward residuals; the claim's `|count| < 4`
fails for negative residuals), feeding the forward gray-code cycle
`1→3→2→0→1` emits exactly one `UP_DOWN(+1)` and leaves the accumulator at
`c`; and in general the ISR emits an event only when the post-edge count
satisfies `|count| ≥ 4`, with `int_arg = count / 4` (C truncating
division). -/
theorem quadrature_detent_amended :
    (∀ c : Int, 0 ≤ c → c < 4 →
      quadrature_run { last_levels := 1, count := c } [3, 2, 0, 1] =
        ({ last_levels := 1, count := c }, [{ type := .UPDOWN, int_arg := 1 }])) ∧
    (∀ s levels, (quadrature_event_isr s levels).2 ≠ [] →
      4 ≤ (quadrature_update s levels).count.natAbs ∧
      (quadrature_event_isr s levels).2 =
        [{ type := .UPDOWN, int_arg := Int.tdiv (quadrature_update s levels).count 4 }]) := by
  constructor
  · intro c h0 h4
    interval_cases c <;> decide
  · intro s levels h
    by_cases hc : 4 ≤ (quadrature_update s levels).count.natAbs
    · exact ⟨hc, by simp [quadrature_event_isr, hc]⟩
    · exact absurd (by simp [quadrature_event_isr, hc]) h

/-- Witness for C4: the amended theorem applied at residual 0 and at a
concrete emitting edge. -/
theorem quadrature_detent_amended_witness :
    quadrature_run { last_levels := 1, count := 0 } [3, 2, 0, 1] =
      ({ last_levels := 1, count := 0 }, [{ type := .UPDOWN, int_arg := 1 }]) ∧
    (quadrature_event_isr { last_levels := 3, count := 3 } 2).2 =
      [{ type := .UPDOWN,
         int_arg := Int.tdiv (quadrature_update { last_levels := 3, count := 3 } 2).count 4 }] :=
  ⟨quadrature_detent_amended.1 0 (by norm_num) (by norm_num),
   (quadrature_detent_amended.2 { last_levels := 3, count := 3 } 2 (by decide)).2⟩

/-- Counterexample to claim C4 as stated: with `last_levels = 1` and
residual `count = -3` (so `|count| < 4`), the full forward cycle emits no
event at all — the four increments only bring the count to 1. -/
theorem quadrature_cycle_cex :
    (Int.natAbs (-3) < 4) ∧
    (quadrature_run { last_levels := 1, count := -3 } [3, 2, 0, 1]).2 = [] := by
  decide

/-! ## C5: resistance readout -/

/-- Claim C5 (code_bug): the guard `current > 0` does not make the divisor
`current / 100000` nonzero.  At `current_usage = 50000 > 0` the divisor is
zero and the C code divides by zero (modelled as `none`). -/
theorem print_resistance_div_by_zero :
    (0 : Int) < 50000 ∧ print_resistance 5000000 50000 = none := by
  decide

/-! ## C1: overtemp preemption -/

/-- Counterexample to claim C1 as stated: delivering an `OVERTEMP` event to
the event loops of the calibration wizard screens does not make them return
the overtemp descriptor — `calibrate_offsets` and `calibrate_voltage`
silently discard it and keep waiting (their step functions cannot return a
descriptor at all). -/
theorem calibration_ignores_overtemp_cex :
    calibrate_offsets [{ type := .OVERTEMP, int_arg := 0 }] 7 (-3) default_settings = none ∧
    calibrate_voltage [{ type := .OVERTEMP, int_arg := 0 }] default_settings = none := by
  decide

/-- Claim C1 (corrected): outside the calibration wizard, every
`next_event`-driven screen — the CC-load screen, the generic menu, and the
contrast editor — returns the overtemp descriptor on the very event cycle
that delivers `OVERTEMP`. -/
theorem overtemp_preemption_amended :
    (∀ st e, e.type = .OVERTEMP → cc_load_step st e = (some STATE_OVERTEMP, st)) ∧
    (∀ md sel e rest, e.type = .OVERTEMP → menu md sel (e :: rest) = some STATE_OVERTEMP) ∧
    (∀ c e rest, e.type = .OVERTEMP →
      set_contrast c (e :: rest) = some (STATE_OVERTEMP, none)) := by
  refine ⟨?_, ?_, ?_⟩
  · intro st e h
    obtain ⟨t, a⟩ := e
    have h' : t = .OVERTEMP := h
    subst h'
    rfl
  · intro md sel e rest h
    obtain ⟨t, a⟩ := e
    have h' : t = .OVERTEMP := h
    subst h'
    rfl
  · intro c e rest h
    obtain ⟨t, a⟩ := e
    have h' : t = .OVERTEMP := h
    subst h'
    rfl

/-- Witness for C1: the amended theorem applied to each of the three
screens at a concrete `OVERTEMP` event. -/
theorem overtemp_preemption_amended_witness :
    cc_load_step { current_setpoint := 0, current_range := 0 }
        { type := .OVERTEMP, int_arg := 0 } =
      (some STATE_OVERTEMP, { current_setpoint := 0, current_range := 0 }) ∧
    menu main_menu 0 [{ type := .OVERTEMP, int_arg := 0 }] = some STATE_OVERTEMP ∧
    set_contrast 40 [{ type := .OVERTEMP, int_arg := 0 }] = some (STATE_OVERTEMP, none) :=
  ⟨overtemp_preemption_amended.1 _ _ rfl,
   overtemp_preemption_amended.2.1 main_menu 0 _ [] rfl,
   overtemp_preemption_amended.2.2 40 _ [] rfl⟩

/-! ## C7: trampoline / main-state discipline -/

/-- Claim C7 (confirmed): in the `vTaskUI` trampoline, a sentinel return
makes the next iteration run the remembered main state, and a non-sentinel
return with `is_main_state` set is both adopted as the current state and
recorded as the new main state. -/
theorem ui_trampoline_main_state (main_state new_state : state_func) :
    (new_state.func = none → (vTaskUI_step main_state new_state).1 = main_state) ∧
    (new_state.func ≠ none → new_state.is_main_state = true →
      vTaskUI_step main_state new_state = (new_state, new_state)) := by
  constructor
  · intro h
    simp [vTaskUI_step, h]
  · intro h hm
    simp [vTaskUI_step, h, hm]

/-- Witness for C7: the trampoline theorem applied to the home sentinel and
to the CC-load descriptor (whose `is_main_state` flag is set). -/
theorem ui_trampoline_main_state_witness :
    (vTaskUI_step STATE_CC_LOAD STATE_MAIN).1 = STATE_CC_LOAD ∧
    vTaskUI_step STATE_MAIN STATE_CC_LOAD = (STATE_CC_LOAD, STATE_CC_LOAD) :=
  ⟨(ui_trampoline_main_state STATE_CC_LOAD STATE_MAIN).1 rfl,
   (ui_trampoline_main_state STATE_MAIN STATE_CC_LOAD).2 (by decide) rfl⟩

/-! ## C9: opamp trim sweep -/

theorem opamp_sweep_aux_none (residual : Nat → Int) (s : settings_t) :
    ∀ (fuel i : Nat), (∀ j, i ≤ j → j < i + fuel → ¬ residual j ≤ 0) →
      opamp_sweep_aux residual s i fuel = s := by
  intro fuel
  induction fuel with
  | zero => intro i _; rfl
  | succ fuel ih =>
    intro i h
    rw [opamp_sweep_aux]
    rw [if_neg (h i (Nat.le_refl i) (by omega))]
    exact ih (i + 1) (fun j h1 h2 => h j (by omega) (by omega))

theorem opamp_sweep_aux_found (residual : Nat → Int) (s : settings_t) :
    ∀ (fuel i k : Nat), i ≤ k → k < i + fuel → residual k ≤ 0 →
      (∀ j, i ≤ j → j < k → ¬ residual j ≤ 0) →
      opamp_sweep_aux residual s i fuel = { s with opamp_offset_trim := (k : Int) - 1 } := by
  intro fuel
  induction fuel with
  | zero => intro i k h1 h2 _ _; omega
  | succ fuel ih =>
    intro i k h1 h2 hk hmin
    rw [opamp_sweep_aux]
    by_cases hi : residual i ≤ 0
    · have hik : k = i := by
        by_contra hne
        exact hmin i (Nat.le_refl i) (by omega) hi
      rw [if_pos hi, hik]
    · rw [if_neg hi]
      have hik : i + 1 ≤ k := by
        rcases Nat.eq_or_lt_of_le h1 with h | h
        · exact absurd (h ▸ hk) hi
        · omega
      exact ih (i + 1) k hik (by omega) hk (fun j ha hb => hmin j (by omega) hb)

/-- Claim C9 (corrected): when the first trim setting `k < 32` whose
residual is `≤ 0` exists, the sweep sets `opamp_offset_trim := k - 1`,
which lies in `[-1, 30]` — not in the documented range `[0, 31]`, since
`k = 0` yields `-1`; when no setting crosses, the field is left unchanged
(together with the whole scratch record). -/
theorem opamp_trim_amended :
    (∀ (residual : Nat → Int) (s : settings_t) (k : Nat), k < 32 → residual k ≤ 0 →
      (∀ j, j < k → ¬ residual j ≤ 0) →
      (calibrate_opamp_dac_offsets residual s).opamp_offset_trim = (k : Int) - 1 ∧
      (-1 : Int) ≤ (k : Int) - 1 ∧ (k : Int) - 1 ≤ 30) ∧
    (∀ (residual : Nat → Int) (s : settings_t), (∀ i, i < 32 → ¬ residual i ≤ 0) →
      calibrate_opamp_dac_offsets residual s = s) := by
  constructor
  · intro residual s k hk hres hmin
    have h := opamp_sweep_aux_found residual s 32 0 k (Nat.zero_le _) (by omega) hres
      (fun j _ hjk => hmin j hjk)
    refine ⟨?_, by omega, ?_⟩
    · rw [calibrate_opamp_dac_offsets, h]
    · have : (k : Int) ≤ 31 := by exact_mod_cast Nat.le_of_lt_succ hk
      omega
  · intro residual s h
    exact opamp_sweep_aux_none residual s 32 0 (fun j _ hj => h j (by omega))

/-- Witness for C9: applied to a residual trace that first crosses at trim
setting 5 (giving `opamp_offset_trim = 4`) and to an always-positive trace
(leaving the record unchanged). -/
theorem opamp_trim_amended_witness :
    (calibrate_opamp_dac_offsets residual0 default_settings).opamp_offset_trim =
      (5 : Int) - 1 ∧
    calibrate_opamp_dac_offsets (fun _ => 1) default_settings = default_settings :=
  ⟨(opamp_trim_amended.1 residual0 default_settings 5 (by norm_num) (by decide)
      (by decide)).1,
   opamp_trim_amended.2 (fun _ => 1) default_settings (by decide)⟩

/-- Counterexample to claim C9 as stated: when the residual is already
non-positive at trim setting 0 (here identically zero), the sweep stores
`0 - 1 = -1` in `opamp_offset_trim`, which is outside the documented range
`0–31`. -/
theorem opamp_trim_range_cex :
    (calibrate_opamp_dac_offsets (fun _ => 0) default_settings).opamp_offset_trim = -1 ∧
    ((-1 : Int) < 0) := by
  decide

/-! ## C3: calibration scratch discipline -/

/-- Claim C3 (confirmed): the calibration wizard mutates only the scratch
copy of the settings.  If it is abandoned in any interactive step before
the final commit, the persisted settings and the write log are bit-identical
to the pre-calibration state; when it completes, exactly one whole-record
`EEPROM_Write` of the scratch result is appended and the home sentinel is
returned. -/
theorem calibrate_scratch_then_single_commit (env : cal_env) (ee : eeprom_state) :
    (calibrate_steps env ee.persisted = none → calibrate env ee = (ee, none)) ∧
    (∀ scratch, calibrate_steps env ee.persisted = some scratch →
      calibrate env ee =
        ({ persisted := scratch, write_log := ee.write_log ++ [scratch] },
          some STATE_MAIN)) := by
  constructor
  · intro h
    unfold calibrate
    rw [h]
  · intro scratch h
    unfold calibrate
    rw [h]

/-- Witness for C3: a completed run from the default settings snapshots the
offsets into the scratch record and performs the single commit. -/
theorem calibrate_scratch_then_single_commit_witness :
    calibrate env0 ee0 =
      ({ persisted := scratch0, write_log := ee0.write_log ++ [scratch0] },
        some STATE_MAIN) :=
  (calibrate_scratch_then_single_commit env0 ee0).2 scratch0 (by decide)

/-! ## C8: overtemp screen exits -/

/-- Claim C8 (confirmed): the overtemp screen exits in exactly two ways —
as soon as the output mode reads `FEEDBACK` it returns the home sentinel
without touching the live state or the mode, and on `BUTTON_PRESS(1)` it
zeroes the setpoint via `set_current(0)` and commands `FEEDBACK` mode
before returning home; every other event (under a non-`FEEDBACK` mode)
leaves it looping, and a stream free of both exit conditions never ends
the screen. -/
theorem overtemp_exit_characterization :
    (∀ (live : state_t) e rest,
      overtemp live ((e, .OUTPUT_MODE_FEEDBACK) :: rest) = some (STATE_MAIN, live, none)) ∧
    (∀ (live : state_t) e m rest, m ≠ .OUTPUT_MODE_FEEDBACK →
      e.type = .BUTTONPRESS → e.int_arg = 1 →
      overtemp live ((e, m) :: rest) =
        some (STATE_MAIN, set_current 0, some .OUTPUT_MODE_FEEDBACK) ∧
      (set_current 0).current_setpoint = 0) ∧
    (∀ (live : state_t) e m rest, m ≠ .OUTPUT_MODE_FEEDBACK →
      ¬(e.type = .BUTTONPRESS ∧ e.int_arg = 1) →
      overtemp live ((e, m) :: rest) = overtemp live rest) ∧
    (∀ (live : state_t) (l : List (ui_event × output_mode)),
      (∀ p ∈ l, p.2 ≠ .OUTPUT_MODE_FEEDBACK ∧
        ¬(p.1.type = .BUTTONPRESS ∧ p.1.int_arg = 1)) →
      overtemp live l = none) := by
  refine ⟨?_, ?_, ?_, ?_⟩
  · intro live e rest
    simp [overtemp]
  · intro live e m rest hm ht ha
    refine ⟨?_, by decide⟩
    rw [overtemp]
    rw [if_neg hm, if_pos ⟨ht, ha⟩]
  · intro live e m rest hm hb
    rw [overtemp]
    rw [if_neg hm, if_neg hb]
  · intro live l h
    induction l with
    | nil => rfl
    | cons p rest ih =>
      obtain ⟨e, m⟩ := p
      obtain ⟨hm, hb⟩ := h (e, m) (List.mem_cons_self _ _)
      rw [overtemp]
      rw [if_neg hm, if_neg hb]
      exact ih (fun q hq => h q (List.mem_cons_of_mem _ hq))

/-- Witness for C8: applied at a feedback reading (exit with no
modification) and at a user acknowledgement (setpoint zeroed, feedback mode
commanded). -/
theorem overtemp_exit_characterization_witness :
    overtemp { current_setpoint := 5000, current_range := 0 }
        [({ type := .NONE, int_arg := 0 }, .OUTPUT_MODE_FEEDBACK)] =
      some (STATE_MAIN, { current_setpoint := 5000, current_range := 0 }, none) ∧
    overtemp { current_setpoint := 5000, current_range := 0 }
        [({ type := .BUTTONPRESS, int_arg := 1 }, .OUTPUT_MODE_OFF)] =
      some (STATE_MAIN, set_current 0, some .OUTPUT_MODE_FEEDBACK) :=
  ⟨overtemp_exit_characterization.1 _ _ _,
   (overtemp_exit_characterization.2.1 _ _ _ _ (by decide) rfl rfl).1⟩

/-! ## C10: CC-load button fallthrough -/

/-- Claim C10 (confirmed): on the CC-load screen a `BUTTON_PRESS` whose
identifier is not 1 falls through the missing `break` into the `UP_DOWN`
case: the screen behaves exactly as if an `UP_DOWN` event with that integer
argument had arrived, requesting `set_current` at the setpoint plus
identifier × active range step; identifier 1 alone transitions to the main
menu. -/
theorem cc_load_button_fallthrough :
    (∀ (st : state_t) (b : Int), b ≠ 1 →
      cc_load_step st { type := .BUTTONPRESS, int_arg := b } =
        cc_load_step st { type := .UPDOWN, int_arg := b } ∧
      cc_load_step st { type := .BUTTONPRESS, int_arg := b } =
        (none, adjust_current_setpoint st b) ∧
      adjust_current_setpoint st b =
        set_current (st.current_setpoint +
          b * (if st.current_range = 0 then CURRENT_LOWRANGE_STEP
               else CURRENT_FULLRANGE_STEP))) ∧
    (∀ st : state_t,
      cc_load_step st { type := .BUTTONPRESS, int_arg := 1 } =
        (some STATE_MAIN_MENU, st)) := by
  constructor
  · intro st b hb
    refine ⟨?_, ?_, ?_⟩
    · simp [cc_load_step, hb]
    · simp [cc_load_step, hb]
    · by_cases hr : st.current_range = 0 <;> simp [adjust_current_setpoint, hr]
  · intro st
    simp [cc_load_step]

/-- Witness for C10: a `BUTTON_PRESS` with identifier 2 on a low-range state
adjusts the setpoint like `UP_DOWN(2)`, and identifier 1 opens the main
menu. -/
theorem cc_load_button_fallthrough_witness :
    cc_load_step { current_setpoint := 0, current_range := 0 }
        { type := .BUTTONPRESS, int_arg := 2 } =
      cc_load_step { current_setpoint := 0, current_range := 0 }
        { type := .UPDOWN, int_arg := 2 } ∧
    cc_load_step { current_setpoint := 0, current_range := 0 }
        { type := .BUTTONPRESS, int_arg := 1 } =
      (some STATE_MAIN_MENU, { current_setpoint := 0, current_range := 0 }) :=
  ⟨(cc_load_button_fallthrough.1 { current_setpoint := 0, current_range := 0 } 2
      (by decide)).1,
   cc_load_button_fallthrough.2 { current_setpoint := 0, current_range := 0 }⟩

/-! ## C6: menu selection bounds and selection -/

theorem menu_down_lt (md : menudata) :
    ∀ (n sel : Nat), sel < md.items.length → menu_down md sel n < md.items.length := by
  intro n
  induction n with
  | zero =>
    intro sel h
    simpa [menu_down] using h
  | succ n ih =>
    intro sel h
    rw [menu_down]
    split
    · exact h
    · rename_i hcap
      apply ih
      rcases Nat.lt_or_ge (sel + 1) md.items.length with hlt | hge
      · exact hlt
      · have hge2 : md.items.length ≤ sel + 1 := hge
        have hnone : md.items.get? (sel + 1) = none := List.get?_eq_none.mpr hge2
        have hisnone : (md.items.get? (sel + 1)).isNone = true := by
          rw [hnone]
          rfl
        exact absurd hisnone hcap

theorem menu_updown_lt (md : menudata) (h0 : 0 < md.items.length)
    (sel : Nat) (delta : Int) (hs : sel < md.items.length) :
    menu_updown md sel delta < md.items.length := by
  unfold menu_updown
  split_ifs with hneg hpos
  · omega
  · exact h0
  · exact menu_down_lt md delta.toNat sel hs

theorem foldl_menu_updown_lt (md : menudata) (h0 : 0 < md.items.length) :
    ∀ (ds : List Int) (sel : Nat), sel < md.items.length →
      ds.foldl (menu_updown md) sel < md.items.length := by
  intro ds
  induction ds with
  | nil =>
    intro sel h
    simpa using h
  | cons d ds ih =>
    intro sel h
    simpa using ih _ (menu_updown_lt md h0 sel d h)

theorem menu_loop_eq (md : menudata) :
    ∀ (ds : List Int) (sel : Nat),
      menu md sel (updown_events ds ++ [{ type := .BUTTONPRESS, int_arg := 1 }]) =
        some ((md.items.getD (ds.foldl (menu_updown md) sel) menuitem_default).new_state) := by
  intro ds
  induction ds with
  | nil =>
    intro sel
    simp [updown_events, menu]
  | cons d ds ih =>
    intro sel
    simp only [updown_events, List.map_cons, List.cons_append, List.foldl_cons]
    rw [menu]
    exact ih (menu_updown md sel d)

/-- Claim C6 (confirmed): for a menu with at least one non-sentinel item,
the selection index stays within `[0, n-1]` after every prefix of an
arbitrary `UP_DOWN` sequence, and a subsequent `BUTTON_PRESS(1)` makes the
menu return `items[selected].new_state`. -/
theorem menu_bounds_and_select (md : menudata) (h : md.items ≠ []) (deltas : List Int) :
    (∀ k, (deltas.take k).foldl (menu_updown md) 0 < md.items.length) ∧
    menu md 0 (updown_events deltas ++ [{ type := .BUTTONPRESS, int_arg := 1 }]) =
      some ((md.items.getD (deltas.foldl (menu_updown md) 0) menuitem_default).new_state) := by
  have h0 : 0 < md.items.length := List.length_pos.mpr h
  exact ⟨fun k => foldl_menu_updown_lt md h0 (deltas.take k) 0 h0,
    menu_loop_eq md deltas 0⟩

/-- Witness for C6: in the four-item main menu, spinning down 100 detents
then up 2 lands on the second item, and the button press selects the
readout-configuration screen. -/
theorem menu_bounds_and_select_witness :
    menu main_menu 0
        (updown_events [100, -2] ++ [{ type := .BUTTONPRESS, int_arg := 1 }]) =
      some STATE_CONFIGURE_CC_DISPLAY := by
  have h := (menu_bounds_and_select main_menu (by decide) [100, -2]).2
  rw [h]
  decide
